import Mathlib

/-!
Shallow embedding of `src/app.py` (optica-system): a small multi-tenant
administrative API backed by a SQLite store.  The datastore is modelled as a
`Store` value holding the list of created tables and the rows of the two
tables `empresas` and `usuarios`; SQL queries become Lean functions over that
state, and queries on a missing table return `Except.error "no such table: …"`
exactly as sqlite does.  Because both CREATE TABLE statements use
AUTOINCREMENT, sqlite also creates its internal `sqlite_sequence` bookkeeping
table the first time such a table is created, and lists it in `sqlite_master`;
the model tracks it in the table list.  The storage engine itself (file
handling, `CURRENT_TIMESTAMP`) is an excluded collaborator: auto-increment
identifiers are modelled as max-id-plus-one and the insert timestamp is an
explicit parameter.  `hashlib.sha256(…).hexdigest()`
is embedded as a full SHA-256 implementation over `Nat`.
-/

namespace Optica

/-! ### SHA-256 (model of `hashlib.sha256(x.encode()).hexdigest()`) -/

/-- Truncate to a 32-bit word. -/
def w32 (n : Nat) : Nat := n % 4294967296

/-- Right rotation of a 32-bit word. -/
def rotr (x n : Nat) : Nat := w32 ((x >>> n) ||| (x <<< (32 - n)))

/-- Bitwise complement of a 32-bit word. -/
def compl32 (x : Nat) : Nat := x ^^^ 4294967295

/-- UTF-8 encoding of a single code point, as bytes. -/
def utf8EncodeCharNat (c : Nat) : List Nat :=
  if c < 128 then [c]
  else if c < 2048 then
    [192 ||| (c >>> 6), 128 ||| (c &&& 63)]
  else if c < 65536 then
    [224 ||| (c >>> 12), 128 ||| ((c >>> 6) &&& 63), 128 ||| (c &&& 63)]
  else
    [240 ||| (c >>> 18), 128 ||| ((c >>> 12) &&& 63),
     128 ||| ((c >>> 6) &&& 63), 128 ||| (c &&& 63)]

/-- UTF-8 bytes of a string (model of Python `str.encode()`). -/
def utf8Bytes (s : String) : List Nat :=
  s.data.flatMap (fun c => utf8EncodeCharNat c.toNat)

/-- Big-endian 8-byte encoding of a number. -/
def be64 (n : Nat) : List Nat :=
  [ (n >>> 56) &&& 255, (n >>> 48) &&& 255, (n >>> 40) &&& 255, (n >>> 32) &&& 255,
    (n >>> 24) &&& 255, (n >>> 16) &&& 255, (n >>> 8) &&& 255, n &&& 255 ]

/-- SHA-256 padding: append `0x80`, zeros, then the 64-bit bit length. -/
def sha256pad (msg : List Nat) : List Nat :=
  let L := msg.length
  let padLen := (64 - ((L + 9) % 64)) % 64
  msg ++ [128] ++ List.replicate padLen 0 ++ be64 (8 * L)

/-- Split a byte list into 64-byte chunks (fuel-indexed for termination). -/
def chunksAux : Nat → List Nat → List (List Nat)
  | 0, _ => []
  | _ + 1, [] => []
  | n + 1, l => l.take 64 :: chunksAux n (l.drop 64)

def chunks64 (l : List Nat) : List (List Nat) := chunksAux l.length l

/-- Combine bytes into big-endian 32-bit words (fuel-indexed). -/
def toWordsAux : Nat → List Nat → List Nat
  | 0, _ => []
  | _ + 1, a :: b :: c :: d :: rest =>
      (a * 16777216 + b * 65536 + c * 256 + d) :: toWordsAux (rest.length) rest
  | _ + 1, _ => []

def toWords (l : List Nat) : List Nat := toWordsAux l.length l

/-- The SHA-256 round constants. -/
def K256 : List Nat :=
  [1116352408, 1899447441, 3049323471, 3921009573,
   961987163, 1508970993, 2453635748, 2870763221,
   3624381080, 310598401, 607225278, 1426881987,
   1925078388, 2162078206, 2614888103, 3248222580,
   3835390401, 4022224774, 264347078, 604807628,
   770255983, 1249150122, 1555081692, 1996064986,
   2554220882, 2821834349, 2952996808, 3210313671,
   3336571891, 3584528711, 113926993, 338241895,
   666307205, 773529912, 1294757372, 1396182291,
   1695183700, 1986661051, 2177026350, 2456956037,
   2730485921, 2820302411, 3259730800, 3345764771,
   3516065817, 3600352804, 4094571909, 275423344,
   430227734, 506948616, 659060556, 883997877,
   958139571, 1322822218, 1537002063, 1747873779,
   1955562222, 2024104815, 2227730452, 2361852424,
   2428436474, 2756734187, 3204031479, 3329325298]

/-- The SHA-256 initial hash value. -/
def H256 : List Nat :=
  [1779033703, 3144134277, 1013904242, 2773480762,
   1359893119, 2600822924, 528734635, 1541459225]

def smallSigma0 (x : Nat) : Nat := rotr x 7 ^^^ rotr x 18 ^^^ (x >>> 3)
def smallSigma1 (x : Nat) : Nat := rotr x 17 ^^^ rotr x 19 ^^^ (x >>> 10)
def bigSigma0 (x : Nat) : Nat := rotr x 2 ^^^ rotr x 13 ^^^ rotr x 22
def bigSigma1 (x : Nat) : Nat := rotr x 6 ^^^ rotr x 11 ^^^ rotr x 25

/-- One extension step of the message schedule: append the next word. -/
def extendWord (ws : List Nat) : List Nat :=
  let n := ws.length
  ws ++ [w32 (ws.getD (n - 16) 0 + smallSigma0 (ws.getD (n - 15) 0) +
              ws.getD (n - 7) 0 + smallSigma1 (ws.getD (n - 2) 0))]

def extendN : Nat → List Nat → List Nat
  | 0, ws => ws
  | n + 1, ws => extendN n (extendWord ws)

/-- The 64-word message schedule of one block. -/
def schedule (block : List Nat) : List Nat := extendN 48 (toWords block)

/-- One compression round; the state is the 8-tuple (a,b,c,d,e,f,g,h). -/
def round256 (st : Nat × Nat × Nat × Nat × Nat × Nat × Nat × Nat) (kw : Nat × Nat) :
    Nat × Nat × Nat × Nat × Nat × Nat × Nat × Nat :=
  let (a, b, c, d, e, f, g, h) := st
  let (k, w) := kw
  let ch := (e &&& f) ^^^ (compl32 e &&& g)
  let maj := (a &&& b) ^^^ (a &&& c) ^^^ (b &&& c)
  let t1 := w32 (h + bigSigma1 e + ch + k + w)
  let t2 := w32 (bigSigma0 a + maj)
  (w32 (t1 + t2), a, b, c, w32 (d + t1), e, f, g)

/-- Compress one 64-byte block into the running hash (8 words). -/
def compress (hs : List Nat) (block : List Nat) : List Nat :=
  let a := hs.getD 0 0
  let b := hs.getD 1 0
  let c := hs.getD 2 0
  let d := hs.getD 3 0
  let e := hs.getD 4 0
  let f := hs.getD 5 0
  let g := hs.getD 6 0
  let h := hs.getD 7 0
  let (a1, b1, c1, d1, e1, f1, g1, h1) :=
    (List.zip K256 (schedule block)).foldl round256 (a, b, c, d, e, f, g, h)
  [w32 (a + a1), w32 (b + b1), w32 (c + c1), w32 (d + d1),
   w32 (e + e1), w32 (f + f1), w32 (g + g1), w32 (h + h1)]

/-- SHA-256 of a byte list, as the 8 words of the final hash. -/
def sha256words (msg : List Nat) : List Nat :=
  (chunks64 (sha256pad msg)).foldl compress H256

def hexDigit (n : Nat) : Char :=
  if n < 10 then Char.ofNat (48 + n) else Char.ofNat (87 + n)

/-- Lowercase hexadecimal rendering of a 32-bit word. -/
def hex8 (n : Nat) : String :=
  String.mk ((List.range 8).map (fun i => hexDigit ((n >>> (4 * (7 - i))) &&& 15)))

/-- Model of `hashlib.sha256(s.encode()).hexdigest()`. -/
def sha256hex (s : String) : String :=
  String.join ((sha256words (utf8Bytes s)).map hex8)

/-! ### Data model (tables `empresas` and `usuarios` of `criar_banco_basico`) -/

/-- A row of the `empresas` table.  `cnpj`, `email`, `telefone` are nullable
TEXT columns; `ativo` is the INTEGER-encoded boolean; `created_at` is the
TEXT timestamp filled by the store engine at insert. -/
structure Empresa where
  id : Nat
  nome : String
  cnpj : Option String
  email : Option String
  telefone : Option String
  ativo : Bool
  created_at : String
  deriving Repr, DecidableEq

/-- A row of the `usuarios` table. -/
structure Usuario where
  id : Nat
  empresa_id : Nat
  nome : String
  email : String
  senha_hash : String
  funcao : String
  ativo : Bool
  created_at : String
  deriving Repr, DecidableEq

/-- The SQLite database: which tables have been created, and the rows of the
two tables, in rowid (insertion) order. -/
structure Store where
  tables : List String
  empresas : List Empresa
  usuarios : List Usuario
  deriving Repr, DecidableEq

/-- A freshly created, still empty database file. -/
def emptyStore : Store := ⟨[], [], []⟩

/-- Model of `CREATE TABLE IF NOT EXISTS`. -/
def createTable (t : String) (ts : List String) : List String :=
  if t ∈ ts then ts else ts ++ [t]

/-- Model of `CREATE TABLE IF NOT EXISTS … AUTOINCREMENT`: when the table is
actually created (not the IF NOT EXISTS no-op), sqlite also creates its
internal `sqlite_sequence` table if this is the first AUTOINCREMENT table. -/
def criarTabelaAutoinc (t : String) (ts : List String) : List String :=
  if t ∈ ts then ts else createTable "sqlite_sequence" (ts ++ [t])

/-- The auto-increment id the store assigns to the next inserted row. -/
def nextId (ids : List Nat) : Nat := ids.foldr max 0 + 1

/-- Model of `criar_banco_basico` (src/app.py lines 70-120): create the two
AUTOINCREMENT tables if absent (which also creates `sqlite_sequence`); then,
iff the `empresas` table holds zero rows, insert the seed company
"Ótica Vision" and the seed admin user, whose `empresa_id` column is the
literal 1 from the INSERT statement.  `ts` is the `CURRENT_TIMESTAMP` the
store engine fills in. -/
def criar_banco_basico (ts : String) (s : Store) : Store :=
  let tabs := criarTabelaAutoinc "usuarios" (criarTabelaAutoinc "empresas" s.tables)
  if s.empresas.length = 0 then
    let emp : Empresa :=
      { id := nextId (s.empresas.map (·.id)), nome := "Ótica Vision",
        cnpj := some "12.345.678/0001-90", email := some "contato@oticavision.com.br",
        telefone := some "(11) 98765-4321", ativo := true, created_at := ts }
    let usr : Usuario :=
      { id := nextId (s.usuarios.map (·.id)), empresa_id := 1, nome := "Administrador",
        email := "admin@oticavision.com.br", senha_hash := sha256hex "123456",
        funcao := "admin", ativo := true, created_at := ts }
    { tables := tabs, empresas := s.empresas ++ [emp], usuarios := s.usuarios ++ [usr] }
  else { s with tables := tabs }

/-! ### Query layer (sqlite behaviour over the store) -/

/-- A query on a missing table fails the way sqlite reports it. -/
def requireTable (s : Store) (t : String) : Except String Unit :=
  if t ∈ s.tables then .ok () else .error ("no such table: " ++ t)

/-- The rows of `usuarios u JOIN empresas e ON u.empresa_id = e.id`, in
nested-loop order. -/
def joinRows (s : Store) : List (Usuario × Empresa) :=
  s.usuarios.flatMap (fun u =>
    (s.empresas.filter (fun e => e.id == u.empresa_id)).map (fun e => (u, e)))

/-- Model of the login SELECT (src/app.py lines 184-191): the first row of the
join where email and password digest match exactly and the user is active
(`fetchone`), or `none`. -/
def buscar_login (s : Store) (email senha_hash : String) :
    Except String (Option (Usuario × Empresa)) := do
  let _ ← requireTable s "usuarios"
  let _ ← requireTable s "empresas"
  .ok ((joinRows s).find? (fun p =>
    p.1.email == email && p.1.senha_hash == senha_hash && p.1.ativo))

/-- The JWT claims dict built at src/app.py lines 199-205.  The HS256
serialization of `jwt.encode` is the excluded signing library; the claims set
itself is what the spec talks about, so the token is modelled by its claims. -/
structure TokenData where
  user_id : Nat
  empresa_id : Nat
  email : String
  funcao : String
  exp : Nat
  deriving Repr, DecidableEq

/-- The `usuario` summary dict of the login response. -/
structure UsuarioResumo where
  id : Nat
  nome : String
  email : String
  funcao : String
  deriving Repr, DecidableEq

/-- The `empresa` summary dict of the login response. -/
structure EmpresaResumo where
  id : Nat
  nome : String
  cnpj : Option String
  deriving Repr, DecidableEq

/-- The `LoginResponse` model of src/app.py lines 49-52. -/
structure LoginResponse where
  token : TokenData
  usuario : UsuarioResumo
  empresa : EmpresaResumo
  deriving Repr, DecidableEq

/-- Outcome of `POST /api/login`: 200 with a payload, 401 "Credenciais
inválidas", or 500 with the wrapped error text. -/
inductive LoginResult where
  | success (r : LoginResponse)
  | invalidCredentials
  | internalError (detail : String)
  deriving Repr, DecidableEq

/-- Model of `login` (src/app.py lines 173-227).  `now` is the current UTC
time in seconds (`datetime.utcnow()`); `timedelta(days=7)` is 604800 seconds.
The 401 raised inside the `try` block is re-raised unchanged by the
`except HTTPException` arm; any other failure becomes the 500. -/
def login (s : Store) (now : Nat) (email password : String) : LoginResult :=
  match buscar_login s email (sha256hex password) with
  | .error e => .internalError ("Erro no login: " ++ e)
  | .ok none => .invalidCredentials
  | .ok (some (u, emp)) =>
      .success
        { token := { user_id := u.id, empresa_id := u.empresa_id, email := u.email,
                     funcao := u.funcao, exp := now + 7 * 24 * 60 * 60 },
          usuario := { id := u.id, nome := u.nome, email := u.email, funcao := u.funcao },
          empresa := { id := u.empresa_id, nome := emp.nome, cnpj := emp.cnpj } }

/-! ### Status endpoint -/

/-- The dict returned by `GET /api/status`; the success branch has no `erro`
key and the error branch has none of the count keys, hence the `Option`
fields.  The `ambiente` and `timestamp` passthrough fields (environment label
and wall clock) are omitted.  -/
structure StatusPayload where
  status : String
  database : Bool
  tabelas : Option Nat
  empresas_ativas : Option Nat
  usuarios_ativos : Option Nat
  erro : Option String
  deriving Repr, DecidableEq

/-- The three count queries of `status` in source order: the `sqlite_master`
table count always succeeds, the two row counts each need their table. -/
def contar_status (s : Store) : Except String (Nat × Nat × Nat) := do
  let t := s.tables.length
  let _ ← requireTable s "empresas"
  let ea := (s.empresas.filter (·.ativo)).length
  let _ ← requireTable s "usuarios"
  let ua := (s.usuarios.filter (·.ativo)).length
  .ok (t, ea, ua)

/-- Model of `status` (src/app.py lines 135-171): any failure is caught and
becomes the structured error payload. -/
def status (s : Store) : StatusPayload :=
  match contar_status s with
  | .ok (t, ea, ua) =>
      { status := "ok", database := true, tabelas := some t,
        empresas_ativas := some ea, usuarios_ativos := some ua, erro := none }
  | .error e =>
      { status := "error", database := false, tabelas := none,
        empresas_ativas := none, usuarios_ativos := none, erro := some e }

/-! ### Listing endpoints -/

/-- A row of the `GET /api/usuarios` listing: the selected columns plus the
joined company name. -/
structure UsuarioListItem where
  id : Nat
  nome : String
  email : String
  funcao : String
  ativo : Bool
  empresa_nome : String
  deriving Repr, DecidableEq

/-- The unsorted rows of the `listar_usuarios` SELECT. -/
def usuariosJoin (s : Store) : List UsuarioListItem :=
  (joinRows s).map (fun p =>
    { id := p.1.id, nome := p.1.nome, email := p.1.email, funcao := p.1.funcao,
      ativo := p.1.ativo, empresa_nome := p.2.nome })

/-- Model of `listar_usuarios` (src/app.py lines 229-252): the join with
`ORDER BY u.nome`, no filter on `ativo`, returned as `{total, usuarios}`. -/
def listar_usuarios (s : Store) : Except String (Nat × List UsuarioListItem) := do
  let _ ← requireTable s "usuarios"
  let _ ← requireTable s "empresas"
  let l := (usuariosJoin s).mergeSort (fun a b => decide (a.nome ≤ b.nome))
  .ok (l.length, l)

/-- Model of `listar_empresas` (src/app.py lines 254-271): `SELECT * FROM
empresas ORDER BY nome`, returned as `{total, empresas}`. -/
def listar_empresas (s : Store) : Except String (Nat × List Empresa) := do
  let _ ← requireTable s "empresas"
  let l := s.empresas.mergeSort (fun a b => decide (a.nome ≤ b.nome))
  .ok (l.length, l)

/-- Projection of a user row onto every column except the password digest. -/
structure UsuarioVisivel where
  id : Nat
  empresa_id : Nat
  nome : String
  email : String
  funcao : String
  ativo : Bool
  created_at : String
  deriving Repr, DecidableEq

/-- Forget the `senha_hash` column of a user row. -/
def ocultarSenha (u : Usuario) : UsuarioVisivel :=
  ⟨u.id, u.empresa_id, u.nome, u.email, u.funcao, u.ativo, u.created_at⟩

/-- A concrete company row used to instantiate hypothesis-bearing theorems. -/
def wEmpresa : Empresa :=
  ⟨1, "Ótica Vision", some "12.345.678/0001-90", none, none, true, "t"⟩

/-- A concrete active admin user row owned by `wEmpresa`. -/
def wUsuario : Usuario :=
  ⟨1, 1, "Administrador", "admin@oticavision.com.br", sha256hex "123456", "admin", true, "t"⟩

/-- A concrete populated store used to instantiate hypothesis-bearing
theorems: both tables exist, one company, one active admin user. -/
def wStore : Store := ⟨["empresas", "usuarios"], [wEmpresa], [wUsuario]⟩

/-- A copy of the concrete store in which the password digest of the admin
user has been replaced by a different string. -/
def wStoreOutraSenha : Store :=
  ⟨["empresas", "usuarios"], [wEmpresa],
   [⟨1, 1, "Administrador", "admin@oticavision.com.br", "outro-hash", "admin", true, "t"⟩]⟩

/-! ### Helper lemmas -/

theorem mem_joinRows {s : Store} {u : Usuario} {e : Empresa} :
    (u, e) ∈ joinRows s ↔ u ∈ s.usuarios ∧ e ∈ s.empresas ∧ e.id = u.empresa_id := by
  simp only [joinRows, List.mem_flatMap, List.mem_map, List.mem_filter]
  constructor
  · rintro ⟨u', hu', e', ⟨he', hid⟩, heq⟩
    obtain ⟨rfl, rfl⟩ := Prod.mk.injEq .. ▸ heq
    exact ⟨hu', he', by simpa using hid⟩
  · rintro ⟨hu, he, hid⟩
    exact ⟨u, hu, e, ⟨he, by simpa using hid⟩, rfl⟩

theorem buscar_login_eq (s : Store) (email hsh : String)
    (hu : "usuarios" ∈ s.tables) (he : "empresas" ∈ s.tables) :
    buscar_login s email hsh =
      .ok ((joinRows s).find? (fun p =>
        p.1.email == email && p.1.senha_hash == hsh && p.1.ativo)) := by
  simp [buscar_login, requireTable, hu, he, Bind.bind, Except.bind]

theorem find?_login_none_iff (s : Store) (email hsh : String) :
    ((joinRows s).find? (fun p =>
        p.1.email == email && p.1.senha_hash == hsh && p.1.ativo) = none) ↔
      ¬ ∃ u e, u ∈ s.usuarios ∧ e ∈ s.empresas ∧ u.empresa_id = e.id ∧
        u.email = email ∧ u.senha_hash = hsh ∧ u.ativo = true := by
  rw [List.find?_eq_none]
  constructor
  · rintro h ⟨u, e, hu, he, hid, hem, hhs, hat⟩
    have hmem : (u, e) ∈ joinRows s := mem_joinRows.mpr ⟨hu, he, hid.symm⟩
    have := h (u, e) hmem
    simp [hem, hhs, hat] at this
  · intro h p hp hpred
    obtain ⟨hu, he, hid⟩ := mem_joinRows.mp hp
    simp only [Bool.and_eq_true, beq_iff_eq] at hpred
    exact h ⟨p.1, p.2, hu, he, hid.symm, hpred.1.1, hpred.1.2, hpred.2⟩

/-- On the concrete store, the login SELECT finds the admin row when given
its email and the digest of "123456". -/
theorem buscar_login_wStore :
    buscar_login wStore "admin@oticavision.com.br" (sha256hex "123456") =
      .ok (some (wUsuario, wEmpresa)) := by
  rw [buscar_login_eq _ _ _ (by simp [wStore]) (by simp [wStore])]
  simp [joinRows, wStore, wUsuario, wEmpresa, List.find?]

/-- On a bootstrapped empty store, the login SELECT finds the seeded admin
row when given the seeded email and the digest of "123456". -/
theorem buscar_login_boot (ts : String) :
    buscar_login (criar_banco_basico ts emptyStore) "admin@oticavision.com.br"
        (sha256hex "123456") =
      .ok (some
        (⟨1, 1, "Administrador", "admin@oticavision.com.br", sha256hex "123456",
          "admin", true, ts⟩,
         ⟨1, "Ótica Vision", some "12.345.678/0001-90",
          some "contato@oticavision.com.br", some "(11) 98765-4321", true, ts⟩)) := by
  rw [buscar_login_eq _ _ _
    (by simp [criar_banco_basico, emptyStore, criarTabelaAutoinc, createTable])
    (by simp [criar_banco_basico, emptyStore, criarTabelaAutoinc, createTable])]
  simp [joinRows, criar_banco_basico, emptyStore, criarTabelaAutoinc, createTable,
    nextId, List.find?]

/-! ### Claim theorems -/

/-- C1: for every login request against a store whose two tables exist, the
outcome is the unauthorized InvalidCredentials error iff no user row exists
with the supplied email, the digest of the supplied password, and the active
flag true, joined to its company; and the outcome is never InternalError. -/
theorem login_invalidCredentials_iff (s : Store) (now : Nat) (email pw : String)
    (hu : "usuarios" ∈ s.tables) (he : "empresas" ∈ s.tables) :
    (login s now email pw = .invalidCredentials ↔
      ¬ ∃ u e, u ∈ s.usuarios ∧ e ∈ s.empresas ∧ u.empresa_id = e.id ∧
        u.email = email ∧ u.senha_hash = sha256hex pw ∧ u.ativo = true) ∧
    ∀ d, login s now email pw ≠ .internalError d := by
  have hq := buscar_login_eq s email (sha256hex pw) hu he
  unfold login
  rw [hq]
  cases hfind : (joinRows s).find? (fun p =>
      p.1.email == email && p.1.senha_hash == sha256hex pw && p.1.ativo) with
  | none =>
    refine ⟨?_, by simp⟩
    rw [← find?_login_none_iff s email (sha256hex pw)]
    simp [hfind]
  | some p =>
    obtain ⟨u, e⟩ := p
    have hpred := List.find?_some hfind
    have hmem := List.mem_of_find?_eq_some hfind
    obtain ⟨hu', he', hid⟩ := mem_joinRows.mp hmem
    simp only [Bool.and_eq_true, beq_iff_eq] at hpred
    exact ⟨iff_of_false (by simp)
      (not_not_intro ⟨u, e, hu', he', hid.symm, hpred.1.1, hpred.1.2, hpred.2⟩), by simp⟩

/-- Witness for C1: instantiation at a concrete store with both tables. -/
theorem login_invalidCredentials_iff_witness :
    ("usuarios" ∈ wStore.tables ∧ "empresas" ∈ wStore.tables) ∧
    ((login wStore 0 "x@y" "pw" = .invalidCredentials ↔
      ¬ ∃ u e, u ∈ wStore.usuarios ∧ e ∈ wStore.empresas ∧ u.empresa_id = e.id ∧
        u.email = "x@y" ∧ u.senha_hash = sha256hex "pw" ∧ u.ativo = true) ∧
    ∀ d, login wStore 0 "x@y" "pw" ≠ .internalError d) :=
  ⟨⟨by simp [wStore], by simp [wStore]⟩,
   login_invalidCredentials_iff wStore 0 "x@y" "pw" (by simp [wStore]) (by simp [wStore])⟩

/-- C2: bootstrapping an empty store twice leaves exactly one company row and
exactly one user row, and the second run is a no-op: it creates no tables and
inserts no rows (the store is unchanged). -/
theorem criar_banco_basico_idempotente (ts1 ts2 : String) :
    (criar_banco_basico ts2 (criar_banco_basico ts1 emptyStore)).empresas.length = 1 ∧
    (criar_banco_basico ts2 (criar_banco_basico ts1 emptyStore)).usuarios.length = 1 ∧
    criar_banco_basico ts2 (criar_banco_basico ts1 emptyStore) =
      criar_banco_basico ts1 emptyStore := by
  refine ⟨rfl, rfl, rfl⟩

/-- C3: the bootstrapper seeds iff zero company rows exist: on an empty
company table it inserts exactly one company "Ótica Vision" (with id 1) and
exactly one user "Administrador" referencing company 1, whose password digest
is the digest of "123456"; on any store with at least one company row it
inserts nothing. -/
theorem criar_banco_basico_seeds_iff_empty (ts : String) (s : Store) :
    (s.empresas = [] →
      (criar_banco_basico ts s).empresas =
        [{ id := 1, nome := "Ótica Vision", cnpj := some "12.345.678/0001-90",
           email := some "contato@oticavision.com.br",
           telefone := some "(11) 98765-4321", ativo := true, created_at := ts }] ∧
      (criar_banco_basico ts s).usuarios =
        s.usuarios ++ [{ id := nextId (s.usuarios.map (·.id)), empresa_id := 1,
                         nome := "Administrador", email := "admin@oticavision.com.br",
                         senha_hash := sha256hex "123456", funcao := "admin",
                         ativo := true, created_at := ts }]) ∧
    (s.empresas ≠ [] →
      (criar_banco_basico ts s).empresas = s.empresas ∧
      (criar_banco_basico ts s).usuarios = s.usuarios) := by
  constructor
  · intro h
    simp [criar_banco_basico, h, nextId]
  · intro h
    have hlen : ¬ s.empresas.length = 0 := by simpa [List.length_eq_zero] using h
    simp [criar_banco_basico, hlen]

/-- Witness for C3: both branches instantiated, at the empty store and at a
store that already holds a company. -/
theorem criar_banco_basico_seeds_iff_empty_witness :
    ((criar_banco_basico "t" emptyStore).empresas =
        [{ id := 1, nome := "Ótica Vision", cnpj := some "12.345.678/0001-90",
           email := some "contato@oticavision.com.br",
           telefone := some "(11) 98765-4321", ativo := true, created_at := "t" }] ∧
      (criar_banco_basico "t" emptyStore).usuarios =
        emptyStore.usuarios ++ [{ id := nextId (emptyStore.usuarios.map (·.id)),
                                  empresa_id := 1, nome := "Administrador",
                                  email := "admin@oticavision.com.br",
                                  senha_hash := sha256hex "123456", funcao := "admin",
                                  ativo := true, created_at := "t" }]) ∧
    ((criar_banco_basico "u" wStore).empresas = wStore.empresas ∧
      (criar_banco_basico "u" wStore).usuarios = wStore.usuarios) :=
  ⟨(criar_banco_basico_seeds_iff_empty "t" emptyStore).1 rfl,
   (criar_banco_basico_seeds_iff_empty "u" wStore).2 (by simp [wStore])⟩

/-- C4: every successful login issues a token whose claims set consists of
the user id, company id, email, role and an expiration of issuance time plus
7 days; and logging in with the seeded admin email and plaintext "123456" on
a bootstrapped store succeeds with a token carrying role "admin" and the
seeded company identifier 1. -/
theorem login_token_claims :
    (∀ (s : Store) (now : Nat) (email pw : String) (u : Usuario) (e : Empresa),
      buscar_login s email (sha256hex pw) = .ok (some (u, e)) →
      ∃ r, login s now email pw = .success r ∧
        r.token = { user_id := u.id, empresa_id := u.empresa_id, email := u.email,
                    funcao := u.funcao, exp := now + 7 * 24 * 60 * 60 }) ∧
    (∀ (ts : String) (now : Nat),
      ∃ r, login (criar_banco_basico ts emptyStore) now
          "admin@oticavision.com.br" "123456" = .success r ∧
        r.token.funcao = "admin" ∧ r.token.empresa_id = 1) := by
  constructor
  · intro s now email pw u e h
    have hs : login s now email pw = .success
        { token := { user_id := u.id, empresa_id := u.empresa_id, email := u.email,
                     funcao := u.funcao, exp := now + 7 * 24 * 60 * 60 },
          usuario := { id := u.id, nome := u.nome, email := u.email,
                       funcao := u.funcao },
          empresa := { id := u.empresa_id, nome := e.nome, cnpj := e.cnpj } } := by
      unfold login
      rw [h]
    exact ⟨_, hs, rfl⟩
  · intro ts now
    have hs : login (criar_banco_basico ts emptyStore) now
        "admin@oticavision.com.br" "123456" = .success
        { token := { user_id := 1, empresa_id := 1,
                     email := "admin@oticavision.com.br", funcao := "admin",
                     exp := now + 7 * 24 * 60 * 60 },
          usuario := { id := 1, nome := "Administrador",
                       email := "admin@oticavision.com.br", funcao := "admin" },
          empresa := { id := 1, nome := "Ótica Vision",
                       cnpj := some "12.345.678/0001-90" } } := by
      unfold login
      rw [buscar_login_boot ts]
    exact ⟨_, hs, rfl, rfl⟩

/-- Witness for C4: the universally quantified part applied at the concrete
store, with its hypothesis discharged by `buscar_login_wStore`. -/
theorem login_token_claims_witness :
    ∃ r, login wStore 0 "admin@oticavision.com.br" "123456" = .success r ∧
      r.token = { user_id := wUsuario.id, empresa_id := wUsuario.empresa_id,
                  email := wUsuario.email, funcao := wUsuario.funcao,
                  exp := 0 + 7 * 24 * 60 * 60 } :=
  login_token_claims.1 wStore 0 "admin@oticavision.com.br" "123456" wUsuario wEmpresa
    buscar_login_wStore

/-- C5: a login succeeds exactly when the SELECT finds a row, and the
returned payload is composed of exactly the token, the user summary
{id, nome, email, funcao} of the matched user, and the company summary
{id, nome, cnpj} of the owning company. -/
theorem login_response_shape :
    (∀ (s : Store) (now : Nat) (email pw : String) (u : Usuario) (e : Empresa),
      buscar_login s email (sha256hex pw) = .ok (some (u, e)) →
      login s now email pw = .success
        { token := { user_id := u.id, empresa_id := u.empresa_id, email := u.email,
                     funcao := u.funcao, exp := now + 7 * 24 * 60 * 60 },
          usuario := { id := u.id, nome := u.nome, email := u.email,
                       funcao := u.funcao },
          empresa := { id := u.empresa_id, nome := e.nome, cnpj := e.cnpj } }) ∧
    (∀ (s : Store) (now : Nat) (email pw : String) (r : LoginResponse),
      login s now email pw = .success r →
      ∃ u e, buscar_login s email (sha256hex pw) = .ok (some (u, e)) ∧
        r = { token := { user_id := u.id, empresa_id := u.empresa_id,
                         email := u.email, funcao := u.funcao,
                         exp := now + 7 * 24 * 60 * 60 },
              usuario := { id := u.id, nome := u.nome, email := u.email,
                           funcao := u.funcao },
              empresa := { id := u.empresa_id, nome := e.nome, cnpj := e.cnpj } }) := by
  constructor
  · intro s now email pw u e h
    unfold login
    rw [h]
  · intro s now email pw r h
    unfold login at h
    cases hq : buscar_login s email (sha256hex pw) with
    | error d => rw [hq] at h; cases h
    | ok o =>
      cases o with
      | none => rw [hq] at h; cases h
      | some p =>
        obtain ⟨u, e⟩ := p
        rw [hq] at h
        refine ⟨u, e, rfl, ?_⟩
        cases h
        rfl

/-- Witness for C5: the forward direction applied at the concrete store. -/
theorem login_response_shape_witness :
    login wStore 0 "admin@oticavision.com.br" "123456" = .success
      { token := { user_id := wUsuario.id, empresa_id := wUsuario.empresa_id,
                   email := wUsuario.email, funcao := wUsuario.funcao,
                   exp := 0 + 7 * 24 * 60 * 60 },
        usuario := { id := wUsuario.id, nome := wUsuario.nome,
                     email := wUsuario.email, funcao := wUsuario.funcao },
        empresa := { id := wUsuario.empresa_id, nome := wEmpresa.nome,
                     cnpj := wEmpresa.cnpj } } :=
  login_response_shape.1 wStore 0 "admin@oticavision.com.br" "123456" wUsuario wEmpresa
    buscar_login_wStore

/-- C7: whenever the status queries succeed, the reported company count is
the number of company rows with the active flag set, the user count is the
number of active user rows, and the table count is the number of schema
tables, independent of the data rows. -/
theorem status_counts (s : Store) (t ea ua : Nat)
    (h : contar_status s = .ok (t, ea, ua)) :
    status s = { status := "ok", database := true, tabelas := some t,
                 empresas_ativas := some ea, usuarios_ativos := some ua,
                 erro := none } ∧
    ea = (s.empresas.filter (·.ativo)).length ∧
    ua = (s.usuarios.filter (·.ativo)).length ∧
    t = s.tables.length := by
  refine ⟨by simp [status, h], ?_⟩
  unfold contar_status requireTable at h
  by_cases he : "empresas" ∈ s.tables <;> by_cases hu : "usuarios" ∈ s.tables <;>
    simp [he, hu, Bind.bind, Except.bind] at h
  exact ⟨h.2.1.symm, h.2.2.symm, h.1.symm⟩

/-- Witness for C7: the concrete store has 2 tables, 1 active company and 1
active user. -/
theorem status_counts_witness :
    contar_status wStore = .ok (2, 1, 1) ∧
    (status wStore = { status := "ok", database := true, tabelas := some 2,
                       empresas_ativas := some 1, usuarios_ativos := some 1,
                       erro := none } ∧
     1 = (wStore.empresas.filter (·.ativo)).length ∧
     1 = (wStore.usuarios.filter (·.ativo)).length ∧
     2 = wStore.tables.length) :=
  ⟨rfl, status_counts wStore 2 1 1 rfl⟩

/-- C8: whenever any of the status queries fails, the status operation does
not propagate the failure: it returns the structured payload with status
"error", database false and the error text. -/
theorem status_error_payload (s : Store) (e : String)
    (h : contar_status s = .error e) :
    status s = { status := "error", database := false, tabelas := none,
                 empresas_ativas := none, usuarios_ativos := none,
                 erro := some e } := by
  simp [status, h]

/-- Witness for C8: on the fresh empty store the first row-count query fails
and status reports it in the error payload. -/
theorem status_error_payload_witness :
    contar_status emptyStore = .error "no such table: empresas" ∧
    status emptyStore = { status := "error", database := false, tabelas := none,
                          empresas_ativas := none, usuarios_ativos := none,
                          erro := some "no such table: empresas" } :=
  ⟨rfl, status_error_payload emptyStore "no such table: empresas" rfl⟩

/-- C9 counterexample: on a fresh empty store (no bootstrap has run) the
status operation does not return the success payload with table count 2 and
zero counts; the row-count queries fail on the missing tables, so it returns
the error payload. -/
theorem status_empty_store_not_ok :
    status emptyStore = { status := "error", database := false, tabelas := none,
                          empresas_ativas := none, usuarios_ativos := none,
                          erro := some "no such table: empresas" } ∧
    status emptyStore ≠ { status := "ok", database := true, tabelas := some 2,
                          empresas_ativas := some 0, usuarios_ativos := some 0,
                          erro := none } := by
  exact ⟨rfl, by decide⟩

/-- The user listing rows, written as one flatMap over the user table. -/
theorem usuariosJoin_eq (s : Store) :
    usuariosJoin s = s.usuarios.flatMap (fun u =>
      (s.empresas.filter (fun e => e.id == u.empresa_id)).map (fun e =>
        ({ id := u.id, nome := u.nome, email := u.email, funcao := u.funcao,
           ativo := u.ativo, empresa_nome := e.nome } : UsuarioListItem))) := by
  simp only [usuariosJoin, joinRows, List.map_flatMap, List.map_map]
  rfl

/-- The user listing rows only depend on the digest-erased user table. -/
theorem usuariosJoin_congr (emps : List Empresa) :
    ∀ us1 us2 : List Usuario, us1.map ocultarSenha = us2.map ocultarSenha →
      us1.flatMap (fun u =>
        (emps.filter (fun e => e.id == u.empresa_id)).map (fun e =>
          ({ id := u.id, nome := u.nome, email := u.email, funcao := u.funcao,
             ativo := u.ativo, empresa_nome := e.nome } : UsuarioListItem))) =
      us2.flatMap (fun u =>
        (emps.filter (fun e => e.id == u.empresa_id)).map (fun e =>
          ({ id := u.id, nome := u.nome, email := u.email, funcao := u.funcao,
             ativo := u.ativo, empresa_nome := e.nome } : UsuarioListItem))) := by
  intro us1
  induction us1 with
  | nil =>
    intro us2 h
    cases us2 with
    | nil => rfl
    | cons v t2 => simp at h
  | cons u t ih =>
    intro us2 h
    cases us2 with
    | nil => simp at h
    | cons v t2 =>
      simp only [List.map_cons, List.cons.injEq] at h
      obtain ⟨hv, ht⟩ := h
      have h1 := congrArg UsuarioVisivel.id hv
      have h2 := congrArg UsuarioVisivel.empresa_id hv
      have h3 := congrArg UsuarioVisivel.nome hv
      have h4 := congrArg UsuarioVisivel.email hv
      have h5 := congrArg UsuarioVisivel.funcao hv
      have h6 := congrArg UsuarioVisivel.ativo hv
      simp only [ocultarSenha] at h1 h2 h3 h4 h5 h6
      simp only [List.flatMap_cons]
      rw [ih t2 ht, h1, h2, h3, h4, h5, h6]

/-- C10: the user listing carries no password digest (its row type has no
digest column) and does not depend on any stored digest: two stores that
agree on tables, companies, and every user column except `senha_hash`
produce identical listings. -/
theorem listar_usuarios_independe_da_senha (s1 s2 : Store)
    (ht : s1.tables = s2.tables) (he : s1.empresas = s2.empresas)
    (hu : s1.usuarios.map ocultarSenha = s2.usuarios.map ocultarSenha) :
    listar_usuarios s1 = listar_usuarios s2 := by
  have hj : usuariosJoin s1 = usuariosJoin s2 := by
    rw [usuariosJoin_eq, usuariosJoin_eq, he]
    exact usuariosJoin_congr s2.empresas _ _ hu
  simp [listar_usuarios, requireTable, ht, hj]

/-- Witness for C10: the concrete store and its digest-swapped copy list the
same users. -/
theorem listar_usuarios_independe_da_senha_witness :
    (wStore.tables = wStoreOutraSenha.tables ∧
     wStore.empresas = wStoreOutraSenha.empresas ∧
     wStore.usuarios.map ocultarSenha = wStoreOutraSenha.usuarios.map ocultarSenha) ∧
    listar_usuarios wStore = listar_usuarios wStoreOutraSenha :=
  have hmap : wStore.usuarios.map ocultarSenha = wStoreOutraSenha.usuarios.map ocultarSenha := by
    simp only [wStore, wStoreOutraSenha, wUsuario, ocultarSenha, List.map_cons, List.map_nil]
  ⟨⟨rfl, rfl, hmap⟩, listar_usuarios_independe_da_senha wStore wStoreOutraSenha rfl rfl hmap⟩

/-- C9 amended: status on a fresh empty store returns the structured error
payload (the count queries fail before any table exists); after the
bootstrapper has run it returns the success payload with table count 3 (the
two schema tables plus the `sqlite_sequence` table that AUTOINCREMENT
creates), one active company and one active user. -/
theorem status_empty_then_bootstrap (ts : String) :
    status emptyStore = { status := "error", database := false, tabelas := none,
                          empresas_ativas := none, usuarios_ativos := none,
                          erro := some "no such table: empresas" } ∧
    status (criar_banco_basico ts emptyStore) =
      { status := "ok", database := true, tabelas := some 3,
        empresas_ativas := some 1, usuarios_ativos := some 1, erro := none } := by
  exact ⟨rfl, rfl⟩

/-- Under referential integrity (the `empresa_id` of each user resolves to
exactly one company row), the join produces exactly one row per user. -/
theorem joinRows_len_aux (emps : List Empresa) :
    ∀ us : List Usuario,
      (∀ u ∈ us, ∃ e, emps.filter (fun x => x.id == u.empresa_id) = [e]) →
      (us.flatMap (fun u => (emps.filter (fun e => e.id == u.empresa_id)).map
        (fun e => (u, e)))).length = us.length := by
  intro us
  induction us with
  | nil => intro _; rfl
  | cons u t ih =>
    intro h
    obtain ⟨e, hee⟩ := h u (List.mem_cons_self u t)
    rw [List.flatMap_cons, List.length_append, List.length_map, hee,
      ih (fun v hv => h v (List.mem_cons_of_mem u hv))]
    simp [Nat.add_comm]

/-- C6: with both tables present and the company of each user resolving
uniquely, `listar_usuarios` returns one row per user row (inactive users
included), each carrying the name of the owning company, sorted by user name
ascending; and
`listar_empresas` returns all company rows (inactive included) sorted by
company name ascending. -/
theorem listagens_ordenadas_completas (s : Store)
    (hu : "usuarios" ∈ s.tables) (he : "empresas" ∈ s.tables)
    (hfk : ∀ u ∈ s.usuarios, ∃ e,
      s.empresas.filter (fun x => x.id == u.empresa_id) = [e]) :
    (∃ l, listar_usuarios s = .ok (l.length, l) ∧
      List.Perm l (usuariosJoin s) ∧
      l.Pairwise (fun a b => a.nome ≤ b.nome) ∧
      (usuariosJoin s).length = s.usuarios.length ∧
      (∀ u ∈ s.usuarios, ∀ e ∈ s.empresas, e.id = u.empresa_id →
        ({ id := u.id, nome := u.nome, email := u.email, funcao := u.funcao,
           ativo := u.ativo, empresa_nome := e.nome } : UsuarioListItem) ∈ l)) ∧
    (∃ m, listar_empresas s = .ok (m.length, m) ∧
      List.Perm m s.empresas ∧
      m.Pairwise (fun a b => a.nome ≤ b.nome)) := by
  constructor
  · refine ⟨(usuariosJoin s).mergeSort (fun a b => decide (a.nome ≤ b.nome)),
      ?_, ?_, ?_, ?_, ?_⟩
    · simp [listar_usuarios, requireTable, hu, he, Bind.bind, Except.bind]
    · exact List.mergeSort_perm _ _
    · have hp : ((usuariosJoin s).mergeSort
          (fun a b => decide (a.nome ≤ b.nome))).Pairwise
          (fun a b => decide (a.nome ≤ b.nome) = true) :=
        List.sorted_mergeSort
          (fun a b c hab hbc => by
            simp only [decide_eq_true_eq] at hab hbc ⊢
            exact le_trans hab hbc)
          (fun a b => by
            simp only [Bool.or_eq_true, decide_eq_true_eq]
            exact le_total _ _)
          (usuariosJoin s)
      exact hp.imp (fun hab => by simpa using hab)
    · rw [usuariosJoin, List.length_map]
      exact joinRows_len_aux s.empresas s.usuarios hfk
    · intro u huu e hee hid
      rw [List.mem_mergeSort]
      have hj : (u, e) ∈ joinRows s := mem_joinRows.mpr ⟨huu, hee, hid⟩
      simpa [usuariosJoin] using List.mem_map_of_mem
        (fun p : Usuario × Empresa =>
          ({ id := p.1.id, nome := p.1.nome, email := p.1.email, funcao := p.1.funcao,
             ativo := p.1.ativo, empresa_nome := p.2.nome } : UsuarioListItem)) hj
  · refine ⟨s.empresas.mergeSort (fun a b => decide (a.nome ≤ b.nome)), ?_, ?_, ?_⟩
    · simp [listar_empresas, requireTable, he, Bind.bind, Except.bind]
    · exact List.mergeSort_perm _ _
    · have hp : (s.empresas.mergeSort
          (fun a b => decide (a.nome ≤ b.nome))).Pairwise
          (fun a b => decide (a.nome ≤ b.nome) = true) :=
        List.sorted_mergeSort
          (fun a b c hab hbc => by
            simp only [decide_eq_true_eq] at hab hbc ⊢
            exact le_trans hab hbc)
          (fun a b => by
            simp only [Bool.or_eq_true, decide_eq_true_eq]
            exact le_total _ _)
          s.empresas
      exact hp.imp (fun hab => by simpa using hab)

/-- Witness for C6: the complete sorted-listing property instantiated at the
concrete store. -/
theorem listagens_ordenadas_completas_witness :
    ("usuarios" ∈ wStore.tables ∧ "empresas" ∈ wStore.tables ∧
      ∀ u ∈ wStore.usuarios, ∃ e,
        wStore.empresas.filter (fun x => x.id == u.empresa_id) = [e]) ∧
    ((∃ l, listar_usuarios wStore = .ok (l.length, l) ∧
      List.Perm l (usuariosJoin wStore) ∧
      l.Pairwise (fun a b => a.nome ≤ b.nome) ∧
      (usuariosJoin wStore).length = wStore.usuarios.length ∧
      (∀ u ∈ wStore.usuarios, ∀ e ∈ wStore.empresas, e.id = u.empresa_id →
        ({ id := u.id, nome := u.nome, email := u.email, funcao := u.funcao,
           ativo := u.ativo, empresa_nome := e.nome } : UsuarioListItem) ∈ l)) ∧
     (∃ m, listar_empresas wStore = .ok (m.length, m) ∧
      List.Perm m wStore.empresas ∧
      m.Pairwise (fun a b => a.nome ≤ b.nome))) :=
  have h1 : "usuarios" ∈ wStore.tables := by simp [wStore]
  have h2 : "empresas" ∈ wStore.tables := by simp [wStore]
  have h3 : ∀ u ∈ wStore.usuarios, ∃ e,
      wStore.empresas.filter (fun x => x.id == u.empresa_id) = [e] := by
    intro u hu
    rw [show wStore.usuarios = [wUsuario] from rfl, List.mem_singleton] at hu
    subst hu
    exact ⟨wEmpresa, rfl⟩
  ⟨⟨h1, h2, h3⟩, listagens_ordenadas_completas wStore h1 h2 h3⟩

end Optica
